import Mathlib

/-!
Verification development for the video-generation pipeline of the
cortana-mega-bot repository (`src/modules/video_gen.py`).

The embedding translates the Python source into pure Lean definitions:

* `VideoSession` with its operations `reset`, `add_photo`, `set_prompt`,
  `start_processing`, `is_ready` mirrors the `VideoSession` class
  (`video_gen.py`, lines 222-257).  Python mutation becomes explicit
  state passing; `add_photo` returns the boolean result together with
  the successor state.
* `VideoGenerator.generate_video` / `mock_generate` / `real_generate` /
  `poll_for_completion` (lines 29-218) are embedded as pure functions
  over an abstract `Service` describing the behaviour of the remote
  Seedance endpoint: every network request either raises an exception
  (`Except.error msg`, the message being `str(e)` of the Python
  exception) or yields a response value.  The filesystem is a list of
  created paths, and every network request issued is recorded in a
  `NetEvent` trace.  Wall-clock time in the polling loop advances by the
  request duration (`Service.pollDur`) plus the fixed 5-second sleep;
  the loop condition `(datetime.now() - start_time).seconds < max_wait`
  reads the *seconds component* of the timedelta, hence the `% 86400`.
-/

namespace VideoGen

/-- The four session states of `VideoSession.state`
(`"idle" | "collecting_photos" | "waiting_for_prompt" | "processing"`). -/
inductive SessionState where
  | idle
  | collecting_photos
  | waiting_for_prompt
  | processing
  deriving DecidableEq, Repr

/-- State of a `VideoSession` object: the fields assigned in
`VideoSession.__init__`. -/
structure VideoSession where
  state : SessionState
  photos : List String
  prompt : String
  deriving DecidableEq, Repr

namespace VideoSession

/-- Python `VideoSession.__init__`: `state = "idle"`, `photos = []`, `prompt = ""`. -/
def init : VideoSession :=
  { state := SessionState.idle, photos := [], prompt := "" }

/-- Python `VideoSession.reset`. -/
def reset (_s : VideoSession) : VideoSession :=
  { state := SessionState.idle, photos := [], prompt := "" }

/-- Python `VideoSession.add_photo`: returns the Python return value together
with the state of the object after the call.  Note that the first `if`
mutates `state` to `collecting_photos` even when the subsequent length
check fails. -/
def add_photo (s : VideoSession) (photo_path : String) : Bool × VideoSession :=
  let s1 := if s.state = SessionState.idle
    then { s with state := SessionState.collecting_photos } else s
  if s1.state = SessionState.collecting_photos then
    if s1.photos.length < 4 then
      (true, { s1 with photos := s1.photos ++ [photo_path] })
    else (false, s1)
  else (false, s1)

/-- Python `VideoSession.set_prompt`: unconditionally assigns the prompt and
moves to `waiting_for_prompt` (there is no state guard in the source). -/
def set_prompt (s : VideoSession) (prompt : String) : VideoSession :=
  { s with prompt := prompt, state := SessionState.waiting_for_prompt }

/-- Python `VideoSession.start_processing`. -/
def start_processing (s : VideoSession) : VideoSession :=
  { s with state := SessionState.processing }

/-- Python `VideoSession.is_ready`:
`len(self.photos) >= 1 and self.prompt and self.state == "waiting_for_prompt"`
(an empty string is falsy in Python). -/
def is_ready (s : VideoSession) : Bool :=
  decide (1 ≤ s.photos.length) && decide (s.prompt ≠ "")
    && decide (s.state = SessionState.waiting_for_prompt)

/-- Sessions reachable from the freshly constructed session by any
sequence of the public operations. -/
inductive Reachable : VideoSession → Prop where
  | init : Reachable init
  | reset (s : VideoSession) : Reachable s → Reachable s.reset
  | add_photo (s : VideoSession) (p : String) :
      Reachable s → Reachable (s.add_photo p).2
  | set_prompt (s : VideoSession) (p : String) :
      Reachable s → Reachable (s.set_prompt p)
  | start_processing (s : VideoSession) :
      Reachable s → Reachable s.start_processing

/-- Sessions reachable when every `set_prompt` call carries non-empty
text (the shape of prompts the chat layer forwards). -/
inductive ReachableNE : VideoSession → Prop where
  | init : ReachableNE init
  | reset (s : VideoSession) : ReachableNE s → ReachableNE s.reset
  | add_photo (s : VideoSession) (p : String) :
      ReachableNE s → ReachableNE (s.add_photo p).2
  | set_prompt (s : VideoSession) (p : String) :
      p ≠ "" → ReachableNE s → ReachableNE (s.set_prompt p)
  | start_processing (s : VideoSession) :
      ReachableNE s → ReachableNE s.start_processing

end VideoSession

/-! ## The generator (`VideoGenerator`) -/

/-- The configuration fields consumed by `VideoGenerator`
(`config.py`, class `Config`). -/
structure Config where
  seedance_api_key : String := ""
  seedance_api_url : String := "https://api.seedance.example.com/v1"
  mock_mode : Bool := true
  video_storage_path : String := "./videos"
  deriving DecidableEq, Repr

/-- Response of `POST /upload`: the HTTP status code and the `file_id`
field of the JSON body (read only on a 200). -/
structure UploadResp where
  status_code : Nat
  file_id : String
  deriving DecidableEq, Repr

/-- Response of `POST /generate`: status code, raw body text (returned
as the error payload on non-200) and the `job_id` field of the JSON
body (read only on a 200). -/
structure SubmitResp where
  status_code : Nat
  text : String
  job_id : String
  deriving DecidableEq, Repr

/-- Response of `GET /jobs/{id}`: status code and the optional JSON
fields the poller reads (`data.get("status", "pending")`,
`data.get("video_url")`, `data.get("error", "Unknown error")`). -/
structure PollResp where
  status_code : Nat
  status : Option String := none
  video_url : Option String := none
  error : Option String := none
  deriving DecidableEq, Repr

/-- One network request issued by the real path, in order. -/
inductive NetEvent where
  | upload (path : String)
  | submit (prompt : String) (reference_images : List String)
  | poll (cycle : Nat)
  | download (url : String)
  deriving DecidableEq, Repr

/-- Behaviour of the remote Seedance service and of the transport, as
observed by one `generate_video` call.  Each operation either raises an
exception (`Except.error msg`, where `msg` is the Python `str(e)`) or
returns a response.  `upload` is indexed by the position of the photo
in the list, `poll` by the polling cycle; `pollDur` gives the
wall-clock seconds consumed by the status request of each cycle
(bounded by the transport timeout of 300 s configured on the client). -/
structure Service where
  upload : Nat → String → Except String UploadResp
  submit : String → List String → Except String SubmitResp
  poll : Nat → Except String PollResp
  pollDur : Nat → Nat
  download : String → Except String String

/-- The filesystem, as the set of files created so far. -/
abbrev FS := List String

/-- The dictionary returned by `generate_video` and its helpers, with
one optional field per JSON key that may appear. -/
structure GenResult where
  job_id : String
  status : String
  video_path : Option String := none
  error : Option String := none
  video_url : Option String := none
  prompt : Option String := none
  message : Option String := none
  deriving DecidableEq, Repr

/-- The path `Path(dir) / f"{job_id}.mp4"` as a string. -/
def videoPath (dir : String) (job_id : String) : String :=
  dir ++ "/" ++ job_id ++ ".mp4"

/-- Message of the exception the HTTP client raises when
`result["video_url"]` is `None` and `client.get(None)` is attempted; the
exact text is transport-internal, the embedding only needs a fixed
message. -/
def noneUrlError : String := "Invalid URL: None"

/-- The `except Exception` branch of `_real_generate` (lines 170-176):
a failed result whose `error` field is `str(e)`. -/
def exnResult (job_id : String) (e : String) : GenResult :=
  { job_id := job_id, status := "failed", error := some e }

/-- The result of the timed-out polling loop. -/
def timeoutResult (remote_job_id : String) : GenResult :=
  { job_id := remote_job_id, status := "failed",
    error := some "Timeout waiting for video generation" }

/-- The polling loop of `_poll_for_completion` (lines 187-218).
`elapsed` is the number of wall-clock seconds since `start_time`,
`cycle` counts the status requests issued so far; `fuel` is an upper
bound on the remaining iterations (the Python loop needs none — see
`pollLoop_isSome`).  The loop guard reads the seconds *component* of
the timedelta, hence `elapsed % 86400`.  Returns the outcome (a raised
exception propagates to the caller), the elapsed seconds on return and
the trace of status requests. -/
def pollLoop (svc : Service) (remote_job_id : String) (max_wait : Nat) :
    Nat → Nat → Nat → Option (Except String GenResult × Nat × List NetEvent)
  | 0, _, _ => none
  | fuel + 1, elapsed, cycle =>
    if elapsed % 86400 < max_wait then
      match svc.poll cycle with
      | Except.error e =>
          some (Except.error e, elapsed + svc.pollDur cycle, [NetEvent.poll cycle])
      | Except.ok r =>
          let t := elapsed + svc.pollDur cycle
          let done : Option GenResult :=
            if r.status_code = 200 then
              if r.status.getD "pending" = "completed" then
                some { job_id := remote_job_id, status := "completed",
                       video_url := r.video_url }
              else if r.status.getD "pending" = "failed" then
                some { job_id := remote_job_id, status := "failed",
                       error := some (r.error.getD "Unknown error") }
              else none
            else none
          match done with
          | some res => some (Except.ok res, t, [NetEvent.poll cycle])
          | none =>
            match pollLoop svc remote_job_id max_wait fuel (t + 5) (cycle + 1) with
            | none => none
            | some (out, t2, tr) => some (out, t2, NetEvent.poll cycle :: tr)
    else
      some (Except.ok { job_id := remote_job_id, status := "failed",
                        error := some "Timeout waiting for video generation" },
            elapsed, [])

/-- The upload phase (lines 108-117): photos are uploaded in order; a
raised exception aborts the phase, a non-200 response is silently
skipped, a 200 contributes its `file_id`.  Returns the outcome and the
trace of upload requests. -/
def uploadLoop (svc : Service) : List String → Nat →
    Except String (List String) × List NetEvent
  | [], _ => (Except.ok [], [])
  | p :: ps, i =>
    match svc.upload i p with
    | Except.error e => (Except.error e, [NetEvent.upload p])
    | Except.ok r =>
        let (rest, tr) := uploadLoop svc ps (i + 1)
        (match rest with
         | Except.error e => Except.error e
         | Except.ok ids =>
             Except.ok (if r.status_code = 200 then r.file_id :: ids else ids),
         NetEvent.upload p :: tr)

/-- Python `VideoGenerator._mock_generate` (lines 58-86): no network traffic,
creates the placeholder file, always returns a completed result. -/
def mock_generate (cfg : Config) (fs : FS) (job_id prompt : String) :
    GenResult × FS × List NetEvent :=
  let path := videoPath cfg.video_storage_path job_id
  ({ job_id := job_id, status := "completed", video_path := some path,
     prompt := some prompt,
     message := some "Video generated (mock mode - until Feb 24)" },
   path :: fs, [])

/-- Python `VideoGenerator._real_generate` (lines 88-176).  `none` means the
polling fuel ran out (see `pollLoop_isSome`: impossible for sufficient
fuel); otherwise the result, the filesystem after the call and the
network trace. -/
def real_generate (cfg : Config) (svc : Service) (fs : FS)
    (job_id prompt : String) (photos : List String) (fuel : Nat) :
    Option (GenResult × FS × List NetEvent) :=
  if cfg.seedance_api_key = "" then
    some ({ job_id := job_id, status := "failed",
            error := some "Seedance API key not configured" }, fs, [])
  else
    match uploadLoop svc photos 0 with
    | (Except.error e, tr) => some (exnResult job_id e, fs, tr)
    | (Except.ok uploaded_photos, tr) =>
      if uploaded_photos = [] then
        some ({ job_id := job_id, status := "failed",
                error := some "Failed to upload photos" }, fs, tr)
      else
        let tr2 := tr ++ [NetEvent.submit prompt uploaded_photos]
        match svc.submit prompt uploaded_photos with
        | Except.error e => some (exnResult job_id e, fs, tr2)
        | Except.ok jr =>
          if jr.status_code ≠ 200 then
            some ({ job_id := job_id, status := "failed",
                    error := some jr.text }, fs, tr2)
          else
            match pollLoop svc jr.job_id 300 fuel 0 0 with
            | none => none
            | some (Except.error e, _, ptr) =>
                some (exnResult job_id e, fs, tr2 ++ ptr)
            | some (Except.ok result, _, ptr) =>
              if result.status = "completed" then
                match result.video_url with
                | none => some (exnResult job_id noneUrlError, fs, tr2 ++ ptr)
                | some video_url =>
                  match svc.download video_url with
                  | Except.error e =>
                      some (exnResult job_id e, fs,
                            tr2 ++ ptr ++ [NetEvent.download video_url])
                  | Except.ok _content =>
                      let path := videoPath cfg.video_storage_path job_id
                      some ({ result with video_path := some path },
                            path :: fs,
                            tr2 ++ ptr ++ [NetEvent.download video_url])
              else some (result, fs, tr2 ++ ptr)

/-- The job id used by a call: the caller-supplied one, or
`f"vid_{uuid.uuid4().hex[:12]}"` where `fresh` stands for the random
hex string. -/
def localJobId (job_id : Option String) (fresh : String) : String :=
  match job_id with
  | some j => j
  | none => "vid_" ++ fresh.take 12

/-- Python `VideoGenerator.generate_video` (lines 29-56): pick the job id,
then dispatch on `mock_mode`. -/
def generate_video (cfg : Config) (svc : Service) (fs : FS)
    (_user_id : Nat) (prompt : String) (photos : List String)
    (job_id : Option String) (fresh : String) (fuel : Nat) :
    Option (GenResult × FS × List NetEvent) :=
  let jid := localJobId job_id fresh
  if cfg.mock_mode then some (mock_generate cfg fs jid prompt)
  else real_generate cfg svc fs jid prompt photos fuel

/-- The message of the first exception raised during the upload,
submit, poll or download phase of a real-mode run, if any; follows the
control flow of `real_generate`. -/
def firstError (svc : Service) (prompt : String) (photos : List String)
    (fuel : Nat) : Option String :=
  match uploadLoop svc photos 0 with
  | (Except.error e, _) => some e
  | (Except.ok uploaded_photos, _) =>
    if uploaded_photos = [] then none
    else
      match svc.submit prompt uploaded_photos with
      | Except.error e => some e
      | Except.ok jr =>
        if jr.status_code ≠ 200 then none
        else
          match pollLoop svc jr.job_id 300 fuel 0 0 with
          | none => none
          | some (Except.error e, _, _) => some e
          | some (Except.ok result, _, _) =>
            if result.status = "completed" then
              match result.video_url with
              | none => some noneUrlError
              | some video_url =>
                match svc.download video_url with
                | Except.error e => some e
                | Except.ok _ => none
            else none

/-! ## Concrete fixtures used by witnesses and counterexamples -/

/-- Mock-mode configuration. -/
def cfgMock : Config :=
  { seedance_api_key := "", mock_mode := true }

/-- Real-mode configuration with a credential. -/
def cfgReal : Config :=
  { seedance_api_key := "sk-test", mock_mode := false }

/-- Real-mode configuration without a credential. -/
def cfgNoKey : Config :=
  { seedance_api_key := "", mock_mode := false }

/-- A service whose uploads and submission succeed: the remote job
handle is `rj_77`; polling reports pending twice and then completion;
the download succeeds. -/
def svcHappy : Service where
  upload := fun _ p => Except.ok { status_code := 200, file_id := "fid-" ++ p }
  submit := fun _ _ => Except.ok { status_code := 200, text := "", job_id := "rj_77" }
  poll := fun k =>
    if k < 2 then Except.ok { status_code := 200, status := some "pending" }
    else Except.ok { status_code := 200, status := some "completed",
                     video_url := some "https://cdn/video.mp4" }
  pollDur := fun _ => 0
  download := fun _ => Except.ok "bytes"

/-- A service whose status endpoint always answers 503: no poll
response ever reports a terminal status. -/
def svcPending : Service where
  upload := fun _ p => Except.ok { status_code := 200, file_id := "fid-" ++ p }
  submit := fun _ _ => Except.ok { status_code := 200, text := "", job_id := "rj_77" }
  poll := fun _ => Except.ok { status_code := 503 }
  pollDur := fun _ => 0
  download := fun _ => Except.ok "bytes"

/-- A service whose first status request raises a transport exception
(`str(e) = "connection reset"`) while everything else succeeds. -/
def svcPollExn : Service where
  upload := fun _ p => Except.ok { status_code := 200, file_id := "fid-" ++ p }
  submit := fun _ _ => Except.ok { status_code := 200, text := "", job_id := "rj_77" }
  poll := fun _ => Except.error "connection reset"
  pollDur := fun _ => 0
  download := fun _ => Except.ok "bytes"

/-- A service that rejects every upload with a 500 response (so zero
file ids are collected) and would accept a submission. -/
def svcUploadReject : Service where
  upload := fun _ _ => Except.ok { status_code := 500, file_id := "unused" }
  submit := fun _ _ => Except.ok { status_code := 200, text := "", job_id := "rj_77" }
  poll := fun _ => Except.ok { status_code := 503 }
  pollDur := fun _ => 0
  download := fun _ => Except.ok "bytes"

/-! ## Session state-machine lemmas -/

namespace VideoSession

/-- Lemma: `add_photo` never changes the prompt. -/
theorem add_photo_prompt (s : VideoSession) (p : String) :
    (s.add_photo p).2.prompt = s.prompt := by
  unfold add_photo
  dsimp only
  split <;> split <;> (try split) <;> simp_all

/-- The state after `add_photo`: `idle` is promoted to
`collecting_photos`, every other state is untouched. -/
theorem add_photo_state (s : VideoSession) (p : String) :
    (s.add_photo p).2.state =
      if s.state = SessionState.idle then SessionState.collecting_photos
      else s.state := by
  unfold add_photo
  dsimp only
  split <;> split <;> (try split) <;> simp_all

/-- The photo list after `add_photo`: either unchanged, or the photo is
appended and the list previously had fewer than 4 entries. -/
theorem add_photo_photos (s : VideoSession) (p : String) :
    (s.add_photo p).2.photos = s.photos ∨
      ((s.add_photo p).2.photos = s.photos ++ [p] ∧ s.photos.length < 4) := by
  unfold add_photo
  dsimp only
  split <;> split <;> (try split) <;> simp_all

/-- Basic reachability invariant: at most 4 photos, and an idle session
holds no photos. -/
theorem reachable_invariant {s : VideoSession} (h : Reachable s) :
    s.photos.length ≤ 4 ∧ (s.state = SessionState.idle → s.photos = []) := by
  induction h with
  | init => exact ⟨by simp [init], fun _ => rfl⟩
  | reset s _ _ => exact ⟨by simp [reset], fun _ => rfl⟩
  | add_photo s p _ ih =>
      obtain ⟨hlen, hidle⟩ := ih
      constructor
      · rcases add_photo_photos s p with hp | ⟨hp, hlt⟩
        · rw [hp]; exact hlen
        · rw [hp]; simp only [List.length_append, List.length_singleton]; omega
      · intro hst
        rw [add_photo_state s p] at hst
        split at hst <;> simp_all
  | set_prompt s p _ ih =>
      exact ⟨by simpa [set_prompt] using ih.1, by intro hst; simp [set_prompt] at hst⟩
  | start_processing s _ ih =>
      exact ⟨by simpa [start_processing] using ih.1,
        by intro hst; simp [start_processing] at hst⟩

/-- Every `ReachableNE` session is `Reachable`. -/
theorem ReachableNE.toReachable {s : VideoSession} (h : ReachableNE s) :
    Reachable s := by
  induction h with
  | init => exact Reachable.init
  | reset s _ ih => exact Reachable.reset s ih
  | add_photo s p _ ih => exact Reachable.add_photo s p ih
  | set_prompt s p _ _ ih => exact Reachable.set_prompt s p ih
  | start_processing s _ ih => exact Reachable.start_processing s ih

/-- With only non-empty prompts, `waiting_for_prompt` implies the prompt
field is non-empty. -/
theorem reachableNE_prompt_invariant {s : VideoSession} (h : ReachableNE s) :
    s.state = SessionState.waiting_for_prompt → s.prompt ≠ "" := by
  induction h with
  | init => intro hst; simp [init] at hst
  | reset s _ _ => intro hst; simp [reset] at hst
  | add_photo s p _ ih =>
      intro hst
      rw [add_photo_state s p] at hst
      rw [add_photo_prompt s p]
      apply ih
      split at hst <;> simp_all
  | set_prompt s p hp _ _ => intro _; simpa [set_prompt] using hp
  | start_processing s _ _ => intro hst; simp [start_processing] at hst

end VideoSession

/-! ## Polling-loop lemmas -/

/-- One polling cycle whose status request returns a non-200 response
is skipped: the loop sleeps the 5-second interval and retries, merely
recording the request in the trace. -/
theorem pollLoop_non200_step (svc : Service) (r : String) (max_wait : Nat)
    (fuel e k : Nat) (resp : PollResp)
    (hp : svc.poll k = Except.ok resp) (h200 : resp.status_code ≠ 200)
    (he : e % 86400 < max_wait) :
    pollLoop svc r max_wait (fuel + 1) e k =
      (pollLoop svc r max_wait fuel (e + svc.pollDur k + 5) (k + 1)).map
        (fun x => (x.1, x.2.1, NetEvent.poll k :: x.2.2)) := by
  conv_lhs => rw [pollLoop]
  rw [if_pos he, hp]
  simp only [if_neg h200]
  cases pollLoop svc r max_wait fuel (e + svc.pollDur k + 5) (k + 1) with
  | none => rfl
  | some x => rfl

/-- A 200 response whose status is neither `completed` nor `failed` is
likewise treated as still pending. -/
theorem pollLoop_pending_step (svc : Service) (r : String) (max_wait : Nat)
    (fuel e k : Nat) (resp : PollResp)
    (hp : svc.poll k = Except.ok resp)
    (hc : resp.status.getD "pending" ≠ "completed")
    (hf : resp.status.getD "pending" ≠ "failed")
    (he : e % 86400 < max_wait) :
    pollLoop svc r max_wait (fuel + 1) e k =
      (pollLoop svc r max_wait fuel (e + svc.pollDur k + 5) (k + 1)).map
        (fun x => (x.1, x.2.1, NetEvent.poll k :: x.2.2)) := by
  conv_lhs => rw [pollLoop]
  rw [if_pos he, hp]
  simp only [if_neg hc, if_neg hf, ite_self]
  cases pollLoop svc r max_wait fuel (e + svc.pollDur k + 5) (k + 1) with
  | none => rfl
  | some x => rfl

/-- A status request that raises an exception ends the loop at once:
the exception propagates out of `_poll_for_completion`. -/
theorem pollLoop_error_step (svc : Service) (r : String) (max_wait : Nat)
    (fuel e k : Nat) (msg : String)
    (hp : svc.poll k = Except.error msg) (he : e % 86400 < max_wait) :
    pollLoop svc r max_wait (fuel + 1) e k =
      some (Except.error msg, e + svc.pollDur k, [NetEvent.poll k]) := by
  conv_lhs => rw [pollLoop]
  rw [if_pos he, hp]

/-- Every successful outcome of the polling loop carries the remote job
id, whatever the service does. -/
theorem pollLoop_ok_job_id (svc : Service) (r : String) (max_wait : Nat) :
    ∀ fuel e k res t tr,
      pollLoop svc r max_wait fuel e k = some (Except.ok res, t, tr) →
      res.job_id = r := by
  intro fuel
  induction fuel with
  | zero => intro e k res t tr h; simp [pollLoop] at h
  | succ n ih =>
      intro e k res t tr h
      unfold pollLoop at h
      split at h
      · cases hp : svc.poll k with
        | error msg => rw [hp] at h; simp at h
        | ok resp =>
            rw [hp] at h
            dsimp only at h
            split at h
            · rename_i res0 hdone
              have h2 := Option.some.inj h
              have hres : Except.ok res0 = Except.ok res := congrArg Prod.fst h2
              injection hres with hres0
              split at hdone
              · split at hdone
                · injection hdone with hd; rw [← hres0, ← hd]
                · split at hdone
                  · injection hdone with hd; rw [← hres0, ← hd]
                  · exact absurd hdone (by simp)
              · exact absurd hdone (by simp)
            · split at h
              · exact absurd h (by simp)
              · rename_i out t2 tr2 hrec
                have h2 := Option.some.inj h
                have hout : out = Except.ok res := congrArg Prod.fst h2
                exact ih _ _ _ _ _ (by rw [hrec, hout])
      · have h2 := Option.some.inj h
        have hres : Except.ok (timeoutResult r) = Except.ok res :=
          congrArg Prod.fst h2
        injection hres with hres0
        rw [← hres0]; rfl

/-- The terminal-status dispatch of one polling cycle yields nothing
when the response is not a 200 carrying a terminal status. -/
theorem pollDone_eq_none (r : String) (resp : PollResp)
    (hnt : ¬(resp.status_code = 200 ∧
        (resp.status.getD "pending" = "completed" ∨
         resp.status.getD "pending" = "failed"))) :
    (if resp.status_code = 200 then
       if resp.status.getD "pending" = "completed" then
         some { job_id := r, status := "completed",
                video_url := resp.video_url : GenResult }
       else if resp.status.getD "pending" = "failed" then
         some { job_id := r, status := "failed",
                error := some (resp.error.getD "Unknown error") : GenResult }
       else none
     else none) = none := by
  split_ifs with h1 h2 h3
  · exact absurd ⟨h1, Or.inl h2⟩ hnt
  · exact absurd ⟨h1, Or.inr h3⟩ hnt
  · rfl
  · rfl

/-- Totality of the polling loop: when each status request takes at
most the 300-second transport timeout and the deadline leaves room
before the 86400-second wrap of the timedelta seconds component, the
loop returns within the given fuel.  The Python `while` loop needs no
fuel; this is its termination argument. -/
theorem pollLoop_isSome (svc : Service) (r : String) (max_wait : Nat)
    (hdur : ∀ k, svc.pollDur k ≤ 300) (hmw : max_wait + 305 ≤ 86400) :
    ∀ fuel e k, e < max_wait + 305 → max_wait + 305 - e ≤ 5 * fuel →
      (pollLoop svc r max_wait fuel e k).isSome := by
  intro fuel
  induction fuel with
  | zero => intro e k he hf; exact absurd hf (by omega)
  | succ n ih =>
      intro e k he hf
      rw [pollLoop]
      split
      · rename_i hguard
        cases hp : svc.poll k with
        | error msg => simp
        | ok resp =>
            dsimp only
            split
            · simp
            · have hd := hdur k
              have hrec := ih (e + svc.pollDur k + 5) (k + 1)
                (by omega) (by omega)
              obtain ⟨x, hx⟩ := Option.isSome_iff_exists.mp hrec
              rw [hx]
              obtain ⟨out, t2, tr2⟩ := x
              simp
      · simp

/-- Against a service that never reports a terminal status (every
status request returns a response, and no response is a 200 with
status `completed` or `failed`), the polling loop returns the timeout
failure; the elapsed time `t` on return satisfies
`max_wait ≤ t < max_wait + 305`. -/
theorem pollLoop_no_terminal (svc : Service) (r : String) (max_wait : Nat)
    (hdur : ∀ k, svc.pollDur k ≤ 300) (hmw : max_wait + 305 ≤ 86400)
    (hsvc : ∀ k, ∃ resp, svc.poll k = Except.ok resp ∧
        ¬(resp.status_code = 200 ∧
          (resp.status.getD "pending" = "completed" ∨
           resp.status.getD "pending" = "failed"))) :
    ∀ fuel e k, e < max_wait + 305 → max_wait + 305 - e ≤ 5 * fuel →
      ∃ t tr, pollLoop svc r max_wait fuel e k =
          some (Except.ok (timeoutResult r), t, tr) ∧
        max_wait ≤ t ∧ t < max_wait + 305 := by
  intro fuel
  induction fuel with
  | zero => intro e k he hf; exact absurd hf (by omega)
  | succ n ih =>
      intro e k he hf
      rw [pollLoop]
      split
      · rename_i hguard
        obtain ⟨resp, hp, hnt⟩ := hsvc k
        rw [hp]
        dsimp only
        rw [pollDone_eq_none r resp hnt]
        have hd := hdur k
        obtain ⟨t, tr, hrec, ht1, ht2⟩ := ih (e + svc.pollDur k + 5) (k + 1)
          (by omega) (by omega)
        rw [hrec]
        exact ⟨t, NetEvent.poll k :: tr, rfl, ht1, ht2⟩
      · rename_i hguard
        exact ⟨e, [], rfl, by omega, he⟩


/-! ## Upload-phase and orchestrator lemmas -/

/-- Every event recorded by the upload phase is an upload request: in
particular no submission is issued during it. -/
theorem uploadLoop_trace (svc : Service) :
    ∀ photos i ev, ev ∈ (uploadLoop svc photos i).2 →
      ∃ p, ev = NetEvent.upload p := by
  intro photos
  induction photos with
  | nil => intro i ev h; simp [uploadLoop] at h
  | cons p ps ih =>
      intro i ev h
      rw [uploadLoop] at h
      cases hu : svc.upload i p with
      | error msg =>
          rw [hu] at h
          simp at h
          exact ⟨p, h⟩
      | ok r =>
          rw [hu] at h
          dsimp only at h
          cases hL : uploadLoop svc ps (i + 1) with
          | mk rest tr =>
              rw [hL] at h
              dsimp only at h
              rcases List.mem_cons.mp h with h1 | h1
              · exact ⟨p, h1⟩
              · exact ih (i + 1) ev (by rw [hL]; exact h1)

/-- Totality of the real path: with request durations bounded by the
transport timeout and enough fuel for the polling loop, a real-mode
run always produces a result dictionary. -/
theorem real_generate_isSome (cfg : Config) (svc : Service) (fs : FS)
    (jid prompt : String) (photos : List String) (fuel : Nat)
    (hdur : ∀ k, svc.pollDur k ≤ 300) (hfuel : 121 ≤ fuel) :
    (real_generate cfg svc fs jid prompt photos fuel).isSome := by
  unfold real_generate
  split
  · simp
  · split
    · simp
    · split
      · simp
      · dsimp only
        split
        · simp
        · rename_i jr hs
          split
          · simp
          · obtain ⟨x, hx⟩ := Option.isSome_iff_exists.mp
              (pollLoop_isSome svc jr.job_id 300 hdur (by omega) fuel 0 0
                (by omega) (by omega))
            rw [hx]
            obtain ⟨out, t2, ptr⟩ := x
            cases out with
            | error msg => simp
            | ok result =>
                dsimp only
                split
                · cases result.video_url with
                  | none => simp
                  | some u =>
                      dsimp only
                      cases svc.download u with
                      | error msg => simp
                      | ok b => simp
                · simp

/-- If some phase of a real-mode run raises an exception (first message
`e`), the run returns the failed dictionary whose `error` field is that
message, leaving the filesystem untouched. -/
theorem real_generate_firstError (cfg : Config) (svc : Service) (fs : FS)
    (jid prompt : String) (photos : List String) (fuel : Nat) (e : String)
    (hk : cfg.seedance_api_key ≠ "")
    (hfe : firstError svc prompt photos fuel = some e) :
    ∃ tr, real_generate cfg svc fs jid prompt photos fuel =
      some (exnResult jid e, fs, tr) := by
  unfold real_generate
  rw [if_neg hk]
  unfold firstError at hfe
  cases hU : uploadLoop svc photos 0 with
  | mk rest utr =>
      rw [hU] at hfe
      cases rest with
      | error msg =>
          dsimp only at hfe ⊢
          injection hfe with hmsg
          subst hmsg
          exact ⟨utr, rfl⟩
      | ok l =>
          dsimp only at hfe ⊢
          by_cases hl : l = []
          · rw [if_pos hl] at hfe; simp at hfe
          · rw [if_neg hl] at hfe
            rw [if_neg hl]
            cases hs : svc.submit prompt l with
            | error msg =>
                rw [hs] at hfe
                dsimp only at hfe ⊢
                injection hfe with hmsg
                subst hmsg
                exact ⟨utr ++ [NetEvent.submit prompt l], rfl⟩
            | ok jr =>
                rw [hs] at hfe
                dsimp only at hfe ⊢
                by_cases h200 : jr.status_code = 200
                · rw [if_neg (by simpa using h200)] at hfe
                  rw [if_neg (by simpa using h200)]
                  cases hpl : pollLoop svc jr.job_id 300 fuel 0 0 with
                  | none => rw [hpl] at hfe; simp at hfe
                  | some x =>
                      obtain ⟨out, t2, ptr⟩ := x
                      rw [hpl] at hfe
                      cases out with
                      | error msg =>
                          dsimp only at hfe ⊢
                          injection hfe with hmsg
                          subst hmsg
                          exact ⟨_, rfl⟩
                      | ok result =>
                          dsimp only at hfe ⊢
                          by_cases hcomp : result.status = "completed"
                          · rw [if_pos hcomp] at hfe
                            rw [if_pos hcomp]
                            cases hvu : result.video_url with
                            | none =>
                                rw [hvu] at hfe
                                dsimp only at hfe ⊢
                                injection hfe with hmsg
                                subst hmsg
                                exact ⟨_, rfl⟩
                            | some u =>
                                rw [hvu] at hfe
                                dsimp only at hfe ⊢
                                cases hdl : svc.download u with
                                | error msg =>
                                    rw [hdl] at hfe
                                    dsimp only at hfe ⊢
                                    injection hfe with hmsg
                                    subst hmsg
                                    exact ⟨_, rfl⟩
                                | ok b =>
                                    rw [hdl] at hfe; simp at hfe
                          · rw [if_neg hcomp] at hfe; simp at hfe
                · rw [if_pos (by simpa using h200)] at hfe
                  simp at hfe


/-- In real mode `generate_video` is the real path at the local job id. -/
theorem generate_video_real (cfg : Config) (svc : Service) (fs : FS)
    (uid : Nat) (prompt : String) (photos : List String)
    (jido : Option String) (fresh : String) (fuel : Nat)
    (hm : cfg.mock_mode = false) :
    generate_video cfg svc fs uid prompt photos jido fresh fuel =
      real_generate cfg svc fs (localJobId jido fresh) prompt photos fuel := by
  unfold generate_video
  dsimp only
  rw [if_neg (by simp [hm])]

/-- In mock mode `generate_video` is the mock path at the local job id. -/
theorem generate_video_mock_eq (cfg : Config) (svc : Service) (fs : FS)
    (uid : Nat) (prompt : String) (photos : List String)
    (jido : Option String) (fresh : String) (fuel : Nat)
    (hm : cfg.mock_mode = true) :
    generate_video cfg svc fs uid prompt photos jido fresh fuel =
      some (mock_generate cfg fs (localJobId jido fresh) prompt) := by
  unfold generate_video
  dsimp only
  rw [if_pos hm]

/-- Behaviour of a real-mode run once the upload phase has produced
file ids and the submission has succeeded with a 200, as a function of
the polling outcome and the download. -/
theorem real_generate_after_submit (cfg : Config) (svc : Service) (fs : FS)
    (jid prompt : String) (photos : List String) (fuel : Nat)
    (l : List String) (utr : List NetEvent) (jr : SubmitResp)
    (hk : cfg.seedance_api_key ≠ "")
    (hup : uploadLoop svc photos 0 = (Except.ok l, utr)) (hl : l ≠ [])
    (hs : svc.submit prompt l = Except.ok jr) (h200 : jr.status_code = 200) :
    (∀ msg t ptr,
       pollLoop svc jr.job_id 300 fuel 0 0 = some (Except.error msg, t, ptr) →
       real_generate cfg svc fs jid prompt photos fuel =
         some (exnResult jid msg, fs,
               utr ++ [NetEvent.submit prompt l] ++ ptr)) ∧
    (∀ result t ptr,
       pollLoop svc jr.job_id 300 fuel 0 0 = some (Except.ok result, t, ptr) →
       (result.status ≠ "completed" →
          real_generate cfg svc fs jid prompt photos fuel =
            some (result, fs, utr ++ [NetEvent.submit prompt l] ++ ptr)) ∧
       (∀ u, result.status = "completed" → result.video_url = some u →
          (∀ b, svc.download u = Except.ok b →
             real_generate cfg svc fs jid prompt photos fuel =
               some ({ result with
                       video_path :=
                         some (videoPath cfg.video_storage_path jid) },
                     videoPath cfg.video_storage_path jid :: fs,
                     utr ++ [NetEvent.submit prompt l] ++ ptr
                       ++ [NetEvent.download u])) ∧
          (∀ msg, svc.download u = Except.error msg →
             real_generate cfg svc fs jid prompt photos fuel =
               some (exnResult jid msg, fs,
                     utr ++ [NetEvent.submit prompt l] ++ ptr
                       ++ [NetEvent.download u])))) := by
  have hred : ∀ x, pollLoop svc jr.job_id 300 fuel 0 0 = x →
      real_generate cfg svc fs jid prompt photos fuel =
        (match x with
        | none => none
        | some (Except.error e, _, ptr) =>
            some (exnResult jid e, fs,
                  utr ++ [NetEvent.submit prompt l] ++ ptr)
        | some (Except.ok result, _, ptr) =>
          if result.status = "completed" then
            match result.video_url with
            | none =>
                some (exnResult jid noneUrlError, fs,
                      utr ++ [NetEvent.submit prompt l] ++ ptr)
            | some video_url =>
              match svc.download video_url with
              | Except.error e =>
                  some (exnResult jid e, fs,
                        utr ++ [NetEvent.submit prompt l] ++ ptr
                          ++ [NetEvent.download video_url])
              | Except.ok _ =>
                  some ({ result with
                          video_path :=
                            some (videoPath cfg.video_storage_path jid) },
                        videoPath cfg.video_storage_path jid :: fs,
                        utr ++ [NetEvent.submit prompt l] ++ ptr
                          ++ [NetEvent.download video_url])
          else some (result, fs, utr ++ [NetEvent.submit prompt l] ++ ptr)) := by
    intro x hx
    unfold real_generate
    rw [if_neg hk, hup]
    dsimp only
    rw [if_neg hl, hs]
    dsimp only
    rw [if_neg (not_not_intro h200), hx]
  refine ⟨?_, ?_⟩
  · intro msg t ptr hpl
    exact hred _ hpl
  · intro result t ptr hpl
    refine ⟨?_, fun u hcomp hurl => ⟨?_, ?_⟩⟩
    · intro hnc
      rw [hred _ hpl]
      dsimp only
      rw [if_neg hnc]
    · intro b hdl
      rw [hred _ hpl]
      dsimp only
      rw [if_pos hcomp, hurl]
      dsimp only
      rw [hdl]
    · intro msg hdl
      rw [hred _ hpl]
      dsimp only
      rw [if_pos hcomp, hurl]
      dsimp only
      rw [hdl]


/-! ## Claim theorems -/

/-- C2: across every sequence of session operations, the photo list of
a reachable `VideoSession` never exceeds 4 entries, and an `add_photo`
call made when 4 photos are already held, or when the state is neither
`idle` nor `collecting_photos`, returns `false` and leaves state,
photos and prompt unchanged. -/
theorem add_photo_cap_and_noop {s : VideoSession} (h : VideoSession.Reachable s) :
    s.photos.length ≤ 4 ∧
    ∀ p, (4 ≤ s.photos.length ∨
          (s.state ≠ SessionState.idle ∧
           s.state ≠ SessionState.collecting_photos)) →
      s.add_photo p = (false, s) := by
  obtain ⟨hlen, hidle⟩ := VideoSession.reachable_invariant h
  refine ⟨hlen, ?_⟩
  intro p hcond
  have hni : s.state ≠ SessionState.idle := by
    rcases hcond with h4 | ⟨hni, _⟩
    · intro hid
      rw [hidle hid] at h4
      simp at h4
    · exact hni
  unfold VideoSession.add_photo
  dsimp only
  rw [if_neg hni]
  rcases hcond with h4 | ⟨_, hnc⟩
  · split
    · rw [if_neg (by omega)]
    · rfl
  · rw [if_neg hnc]

/-- C2 witness: a processing session with one photo rejects a fifth
operation unchanged. -/
theorem add_photo_cap_and_noop_witness :
    (((VideoSession.init.add_photo "p1").2.set_prompt "go").start_processing).photos.length ≤ 4 ∧
    (((VideoSession.init.add_photo "p1").2.set_prompt "go").start_processing).add_photo "p2" =
      (false, ((VideoSession.init.add_photo "p1").2.set_prompt "go").start_processing) := by
  have h := add_photo_cap_and_noop
    (VideoSession.Reachable.start_processing _
      (VideoSession.Reachable.set_prompt _ "go"
        (VideoSession.Reachable.add_photo _ "p1" VideoSession.Reachable.init)))
  exact ⟨h.1, h.2 "p2" (Or.inr ⟨by decide, by decide⟩)⟩

/-- C3: on every reachable session, `is_ready` is true exactly when at
least one photo is held, the prompt is non-empty and the state is
`waiting_for_prompt`. -/
theorem is_ready_iff {s : VideoSession} (_h : VideoSession.Reachable s) :
    s.is_ready = true ↔
      (1 ≤ s.photos.length ∧ s.prompt ≠ "" ∧
       s.state = SessionState.waiting_for_prompt) := by
  simp [VideoSession.is_ready, and_assoc]

/-- C3 witness: evaluated on the reachable session holding one photo
and the prompt "go". -/
theorem is_ready_iff_witness :
    ((VideoSession.init.add_photo "p1").2.set_prompt "go").is_ready = true ↔
      (1 ≤ ((VideoSession.init.add_photo "p1").2.set_prompt "go").photos.length ∧
       ((VideoSession.init.add_photo "p1").2.set_prompt "go").prompt ≠ "" ∧
       ((VideoSession.init.add_photo "p1").2.set_prompt "go").state =
         SessionState.waiting_for_prompt) :=
  is_ready_iff
    (VideoSession.Reachable.set_prompt _ "go"
      (VideoSession.Reachable.add_photo _ "p1" VideoSession.Reachable.init))

/-- C4 counterexample: the claim fails on the code.  A processing
session is mutated by `set_prompt` (state moves back to
`waiting_for_prompt`), and `set_prompt ""` reaches `waiting_for_prompt`
with an unset (empty) prompt. -/
theorem session_invariant_counterexample :
    ((((VideoSession.init.add_photo "p1").2.set_prompt "go").start_processing).state =
        SessionState.processing ∧
      ((((VideoSession.init.add_photo "p1").2.set_prompt "go").start_processing).set_prompt "new") ≠
        (((VideoSession.init.add_photo "p1").2.set_prompt "go").start_processing)) ∧
    ((VideoSession.init.set_prompt "").state = SessionState.waiting_for_prompt ∧
     (VideoSession.init.set_prompt "").prompt = "") := by
  decide

/-- C4 (amended): every reachable session holds at most 4 photos;
`add_photo` and `start_processing` leave a processing session
unchanged; but `set_prompt` mutates even a processing session,
unconditionally setting the prompt and moving the state to
`waiting_for_prompt`; and when every `set_prompt` call carries
non-empty text, `waiting_for_prompt` implies the prompt is set. -/
theorem session_invariants_amended :
    (∀ s : VideoSession, VideoSession.Reachable s → s.photos.length ≤ 4) ∧
    (∀ (s : VideoSession) (p : String),
       s.state = SessionState.processing → s.add_photo p = (false, s)) ∧
    (∀ s : VideoSession,
       s.state = SessionState.processing → s.start_processing = s) ∧
    (∀ (s : VideoSession) (p : String),
       (s.set_prompt p).state = SessionState.waiting_for_prompt ∧
       (s.set_prompt p).prompt = p ∧ (s.set_prompt p).photos = s.photos) ∧
    (∀ s : VideoSession, VideoSession.ReachableNE s →
       s.state = SessionState.waiting_for_prompt → s.prompt ≠ "") := by
  refine ⟨fun s hs => (VideoSession.reachable_invariant hs).1, ?_, ?_, ?_, ?_⟩
  · intro s p hs
    unfold VideoSession.add_photo
    dsimp only
    simp [hs]
  · intro s hs
    cases s with
    | mk st ph pr =>
        simp only [VideoSession.start_processing] at hs ⊢
        rw [← hs]
  · exact fun s p => ⟨rfl, rfl, rfl⟩
  · exact fun s hs => VideoSession.reachableNE_prompt_invariant hs

/-- C4 (amended) witness: the five parts evaluated on concrete
sessions. -/
theorem session_invariants_amended_witness :
    VideoSession.init.photos.length ≤ 4 ∧
    ({ state := SessionState.processing, photos := ["p1"], prompt := "go" } :
        VideoSession).add_photo "p2" =
      (false, { state := SessionState.processing, photos := ["p1"],
                prompt := "go" }) ∧
    ({ state := SessionState.processing, photos := ["p1"], prompt := "go" } :
        VideoSession).start_processing =
      { state := SessionState.processing, photos := ["p1"], prompt := "go" } ∧
    (VideoSession.init.set_prompt "go").state =
      SessionState.waiting_for_prompt ∧
    ((VideoSession.init.add_photo "p1").2.set_prompt "go").prompt ≠ "" := by
  have h := session_invariants_amended
  refine ⟨h.1 VideoSession.init VideoSession.Reachable.init,
    h.2.1 _ "p2" rfl, h.2.2.1 _ rfl, (h.2.2.2.1 VideoSession.init "go").1,
    h.2.2.2.2 _ ?_ rfl⟩
  exact VideoSession.ReachableNE.set_prompt _ "go" (by decide)
    (VideoSession.ReachableNE.add_photo _ "p1" VideoSession.ReachableNE.init)


/-- C1: `generate_video` always returns a result dictionary (no
exception escapes, in mock or real mode, given the transport timeout
bound and polling fuel), and in real mode with a credential, whenever a
phase raises an exception whose first message is `e`, the call returns
the failed dictionary whose `error` field is exactly `e`. -/
theorem generate_video_exception_barrier (cfg : Config) (svc : Service)
    (fs : FS) (uid : Nat) (prompt : String) (photos : List String)
    (jido : Option String) (fresh : String) (fuel : Nat)
    (hdur : ∀ k, svc.pollDur k ≤ 300) (hfuel : 121 ≤ fuel) :
    (generate_video cfg svc fs uid prompt photos jido fresh fuel).isSome ∧
    (∀ e, cfg.mock_mode = false → cfg.seedance_api_key ≠ "" →
       firstError svc prompt photos fuel = some e →
       ∃ tr, generate_video cfg svc fs uid prompt photos jido fresh fuel =
         some (exnResult (localJobId jido fresh) e, fs, tr)) := by
  constructor
  · unfold generate_video
    dsimp only
    split
    · simp
    · exact real_generate_isSome cfg svc fs _ prompt photos fuel hdur hfuel
  · intro e hm hk hfe
    rw [generate_video_real cfg svc fs uid prompt photos jido fresh fuel hm]
    exact real_generate_firstError cfg svc fs _ prompt photos fuel e hk hfe

/-- C1 witness: a poll request raising `"connection reset"` is caught
and surfaces as the error message of the failed result. -/
theorem generate_video_exception_barrier_witness :
    (generate_video cfgReal svcPollExn [] 7 "a prompt" ["p1.jpg"]
      (some "vid_local") "" 200).isSome ∧
    ∃ tr, generate_video cfgReal svcPollExn [] 7 "a prompt" ["p1.jpg"]
        (some "vid_local") "" 200 =
      some (exnResult (localJobId (some "vid_local") "") "connection reset",
            [], tr) := by
  have h := generate_video_exception_barrier cfgReal svcPollExn [] 7 "a prompt"
    ["p1.jpg"] (some "vid_local") "" 200 (fun _ => Nat.zero_le 300) (by omega)
  exact ⟨h.1, h.2 "connection reset" rfl (by decide) rfl⟩

/-- C5: in mock mode `generate_video` issues no network request and
returns a completed result whose `video_path` is the storage directory
joined with `<job_id>.mp4`, a file created before the call returns. -/
theorem generate_video_mock_contract (cfg : Config) (svc : Service)
    (fs : FS) (uid : Nat) (prompt : String) (photos : List String)
    (jido : Option String) (fresh : String) (fuel : Nat)
    (hm : cfg.mock_mode = true)
    (_hphotos : 1 ≤ photos.length ∧ photos.length ≤ 4) :
    ∃ r fs2,
      generate_video cfg svc fs uid prompt photos jido fresh fuel =
        some (r, fs2, []) ∧
      r.status = "completed" ∧
      r.video_path =
        some (videoPath cfg.video_storage_path (localJobId jido fresh)) ∧
      videoPath cfg.video_storage_path (localJobId jido fresh) ∈ fs2 := by
  rw [generate_video_mock_eq cfg svc fs uid prompt photos jido fresh fuel hm]
  exact ⟨_, _, rfl, rfl, rfl, List.mem_cons_self _ _⟩

/-- C5 witness: mock generation with one photo. -/
theorem generate_video_mock_contract_witness :
    ∃ r fs2,
      generate_video cfgMock svcPending ["pre"] 7 "a prompt" ["p1.jpg"]
        (some "vid_local") "" 200 = some (r, fs2, []) ∧
      r.status = "completed" ∧
      r.video_path =
        some (videoPath cfgMock.video_storage_path
          (localJobId (some "vid_local") "")) ∧
      videoPath cfgMock.video_storage_path (localJobId (some "vid_local") "")
        ∈ fs2 :=
  generate_video_mock_contract cfgMock svcPending ["pre"] 7 "a prompt"
    ["p1.jpg"] (some "vid_local") "" 200 rfl (by decide)

/-- C6: in real mode with a credential, when the upload phase collects
zero file ids the call fails with exactly "Failed to upload photos",
and the network trace contains only upload requests — the submission is
never issued. -/
theorem generate_video_upload_failure (cfg : Config) (svc : Service)
    (fs : FS) (uid : Nat) (prompt : String) (photos : List String)
    (jido : Option String) (fresh : String) (fuel : Nat)
    (utr : List NetEvent)
    (hm : cfg.mock_mode = false) (hk : cfg.seedance_api_key ≠ "")
    (hup : uploadLoop svc photos 0 = (Except.ok [], utr)) :
    generate_video cfg svc fs uid prompt photos jido fresh fuel =
      some ({ job_id := localJobId jido fresh, status := "failed",
              error := some "Failed to upload photos" }, fs, utr) ∧
    ∀ ev ∈ utr, ∃ p, ev = NetEvent.upload p := by
  constructor
  · rw [generate_video_real cfg svc fs uid prompt photos jido fresh fuel hm]
    unfold real_generate
    rw [if_neg hk, hup]
    dsimp only
    rw [if_pos rfl]
  · intro ev hev
    exact uploadLoop_trace svc photos 0 ev (by rw [hup]; exact hev)

/-- C6 witness: two uploads rejected with 500, zero ids collected. -/
theorem generate_video_upload_failure_witness :
    generate_video cfgReal svcUploadReject [] 7 "a prompt"
        ["p1.jpg", "p2.jpg"] (some "vid_local") "" 200 =
      some ({ job_id := localJobId (some "vid_local") "", status := "failed",
              error := some "Failed to upload photos" }, [],
            [NetEvent.upload "p1.jpg", NetEvent.upload "p2.jpg"]) ∧
    ∀ ev ∈ [NetEvent.upload "p1.jpg", NetEvent.upload "p2.jpg"],
      ∃ p, ev = NetEvent.upload p :=
  generate_video_upload_failure cfgReal svcUploadReject [] 7 "a prompt"
    ["p1.jpg", "p2.jpg"] (some "vid_local") "" 200
    [NetEvent.upload "p1.jpg", NetEvent.upload "p2.jpg"]
    rfl (by decide) rfl

/-- C9: in real mode with no API key configured, `generate_video`
fails fast with the configuration error message and an empty network
trace — zero network calls. -/
theorem generate_video_no_credential (cfg : Config) (svc : Service)
    (fs : FS) (uid : Nat) (prompt : String) (photos : List String)
    (jido : Option String) (fresh : String) (fuel : Nat)
    (hm : cfg.mock_mode = false) (hk : cfg.seedance_api_key = "") :
    generate_video cfg svc fs uid prompt photos jido fresh fuel =
      some ({ job_id := localJobId jido fresh, status := "failed",
              error := some "Seedance API key not configured" }, fs, []) := by
  rw [generate_video_real cfg svc fs uid prompt photos jido fresh fuel hm]
  unfold real_generate
  rw [if_pos hk]

/-- C9 witness. -/
theorem generate_video_no_credential_witness :
    generate_video cfgNoKey svcPending [] 7 "a prompt" ["p1.jpg"]
        (some "vid_local") "" 200 =
      some ({ job_id := localJobId (some "vid_local") "", status := "failed",
              error := some "Seedance API key not configured" }, [], []) :=
  generate_video_no_credential cfgNoKey svcPending [] 7 "a prompt" ["p1.jpg"]
    (some "vid_local") "" 200 rfl rfl

/-- C7: against a service that never reports a terminal status, the
polling loop terminates and returns the timeout failure; the elapsed
wall-clock time `t` on return satisfies `max_wait ≤ t` (never
meaningfully before the deadline) and `t < max_wait + 305` (the
deadline, plus at most one final request-plus-sleep cycle, is a hard
upper bound on the polling phase). -/
theorem pollUntilDone_timeout (svc : Service) (remote_job_id : String)
    (max_wait fuel : Nat)
    (hdur : ∀ k, svc.pollDur k ≤ 300) (hmw : max_wait + 305 ≤ 86400)
    (hfuel : max_wait + 305 ≤ 5 * fuel)
    (hsvc : ∀ k, ∃ resp, svc.poll k = Except.ok resp ∧
        ¬(resp.status_code = 200 ∧
          (resp.status.getD "pending" = "completed" ∨
           resp.status.getD "pending" = "failed"))) :
    ∃ t tr, pollLoop svc remote_job_id max_wait fuel 0 0 =
        some (Except.ok (timeoutResult remote_job_id), t, tr) ∧
      max_wait ≤ t ∧ t < max_wait + 305 :=
  pollLoop_no_terminal svc remote_job_id max_wait hdur hmw hsvc fuel 0 0
    (by omega) (by omega)

/-- C7 witness: a service answering 503 forever times out at the
300-second deadline. -/
theorem pollUntilDone_timeout_witness :
    ∃ t tr, pollLoop svcPending "rj_77" 300 200 0 0 =
        some (Except.ok (timeoutResult "rj_77"), t, tr) ∧
      300 ≤ t ∧ t < 300 + 305 :=
  pollUntilDone_timeout svcPending "rj_77" 300 200
    (fun _ => Nat.zero_le 300) (by omega) (by omega)
    (fun _ => ⟨{ status_code := 503 }, rfl, by decide⟩)


/-- C8 counterexample: a status request that raises a transport
exception (`"connection reset"`) at the very first polling cycle is
not treated as pending — the loop ends at once, well before the
deadline, and `generate_video` returns a Failed result on account of
that error. -/
theorem poll_transient_error_counterexample :
    pollLoop svcPollExn "rj_77" 300 200 0 0 =
      some (Except.error "connection reset", 0, [NetEvent.poll 0]) ∧
    generate_video cfgReal svcPollExn [] 7 "a prompt" ["p1.jpg"]
        (some "vid_local") "" 200 =
      some (exnResult "vid_local" "connection reset", [],
            [NetEvent.upload "p1.jpg", NetEvent.submit "a prompt" ["fid-p1.jpg"],
             NetEvent.poll 0]) :=
  ⟨rfl, rfl⟩

/-- C8 (amended): a status request answered with a non-200 response is
treated as still pending for that cycle — the poller sleeps one
interval and retries — but a status request that raises a transport
exception ends the polling loop immediately and `generate_video`
returns a Failed result whose error is the message of that exception. -/
theorem poll_transient_error_behaviour :
    (∀ (svc : Service) (r : String) (mw fuel e k : Nat) (resp : PollResp),
       svc.poll k = Except.ok resp → resp.status_code ≠ 200 →
       e % 86400 < mw →
       pollLoop svc r mw (fuel + 1) e k =
         (pollLoop svc r mw fuel (e + svc.pollDur k + 5) (k + 1)).map
           (fun x => (x.1, x.2.1, NetEvent.poll k :: x.2.2))) ∧
    (∀ (svc : Service) (r : String) (mw fuel e k : Nat) (msg : String),
       svc.poll k = Except.error msg → e % 86400 < mw →
       pollLoop svc r mw (fuel + 1) e k =
         some (Except.error msg, e + svc.pollDur k, [NetEvent.poll k])) ∧
    (∀ (cfg : Config) (svc : Service) (fs : FS) (uid : Nat) (prompt : String)
       (photos : List String) (jido : Option String) (fresh : String)
       (fuel : Nat) (l : List String) (utr : List NetEvent) (jr : SubmitResp)
       (msg : String) (t : Nat) (ptr : List NetEvent),
       cfg.mock_mode = false → cfg.seedance_api_key ≠ "" →
       uploadLoop svc photos 0 = (Except.ok l, utr) → l ≠ [] →
       svc.submit prompt l = Except.ok jr → jr.status_code = 200 →
       pollLoop svc jr.job_id 300 fuel 0 0 = some (Except.error msg, t, ptr) →
       generate_video cfg svc fs uid prompt photos jido fresh fuel =
         some (exnResult (localJobId jido fresh) msg, fs,
               utr ++ [NetEvent.submit prompt l] ++ ptr)) := by
  refine ⟨pollLoop_non200_step, pollLoop_error_step, ?_⟩
  intro cfg svc fs uid prompt photos jido fresh fuel l utr jr msg t ptr
    hm hk hup hl hs h200 hpl
  rw [generate_video_real cfg svc fs uid prompt photos jido fresh fuel hm]
  exact (real_generate_after_submit cfg svc fs (localJobId jido fresh) prompt
    photos fuel l utr jr hk hup hl hs h200).1 msg t ptr hpl

/-- C8 (amended) witness: the 503 answers of `svcPending` are retried
as pending, while the raised exception of `svcPollExn` aborts the run
with its message. -/
theorem poll_transient_error_behaviour_witness :
    pollLoop svcPending "rj_77" 300 5 0 0 =
      (pollLoop svcPending "rj_77" 300 4 (0 + svcPending.pollDur 0 + 5) 1).map
        (fun x => (x.1, x.2.1, NetEvent.poll 0 :: x.2.2)) ∧
    pollLoop svcPollExn "rj_77" 300 5 0 0 =
      some (Except.error "connection reset", 0 + svcPollExn.pollDur 0,
            [NetEvent.poll 0]) ∧
    generate_video cfgReal svcPollExn [] 7 "a prompt" ["p1.jpg"]
        (some "vid_local") "" 200 =
      some (exnResult (localJobId (some "vid_local") "") "connection reset",
            [],
            [NetEvent.upload "p1.jpg"] ++ [NetEvent.submit "a prompt" ["fid-p1.jpg"]]
              ++ [NetEvent.poll 0]) := by
  have h := poll_transient_error_behaviour
  exact ⟨h.1 svcPending "rj_77" 300 4 0 0 { status_code := 503 } rfl
      (by decide) (by decide),
    h.2.1 svcPollExn "rj_77" 300 4 0 0 "connection reset" rfl (by decide),
    h.2.2 cfgReal svcPollExn [] 7 "a prompt" ["p1.jpg"] (some "vid_local") ""
      200 ["fid-p1.jpg"] [NetEvent.upload "p1.jpg"]
      { status_code := 200, text := "", job_id := "rj_77" }
      "connection reset" 0 [NetEvent.poll 0]
      rfl (by decide) rfl (by decide) rfl rfl rfl⟩

/-- C10 counterexample: the submit phase succeeds (the remote handle is
`rj_77`), yet the returned `job_id` is the local `vid_local`, because
the subsequent poll request raises an exception that is caught at the
orchestrator boundary. -/
theorem result_job_id_counterexample :
    svcPollExn.submit "a prompt" ["fid-p1.jpg"] =
      Except.ok { status_code := 200, text := "", job_id := "rj_77" } ∧
    (generate_video cfgReal svcPollExn [] 7 "a prompt" ["p1.jpg"]
        (some "vid_local") "" 200).map (fun x => x.1.job_id) =
      some "vid_local" ∧
    "vid_local" ≠ "rj_77" := by
  refine ⟨rfl, rfl, by decide⟩

/-- C10 (amended): once the submission succeeds with a 200, the result
returned by `generate_video` carries the remote job handle whenever the
polling loop returns an outcome without raising (timeout and
remote-failure included) and, in the completed case, the download
succeeds; the downloaded artifact is nevertheless written to the file
named after the local job id.  If the poll or download request raises
an exception, the Failed result carries the local job id instead. -/
theorem result_job_id_after_submit (cfg : Config) (svc : Service) (fs : FS)
    (uid : Nat) (prompt : String) (photos : List String)
    (jido : Option String) (fresh : String) (fuel : Nat)
    (l : List String) (utr : List NetEvent) (jr : SubmitResp)
    (hm : cfg.mock_mode = false) (hk : cfg.seedance_api_key ≠ "")
    (hup : uploadLoop svc photos 0 = (Except.ok l, utr)) (hl : l ≠ [])
    (hs : svc.submit prompt l = Except.ok jr) (h200 : jr.status_code = 200) :
    (∀ result t ptr,
       pollLoop svc jr.job_id 300 fuel 0 0 = some (Except.ok result, t, ptr) →
       result.job_id = jr.job_id ∧
       (result.status ≠ "completed" →
          ∃ fs2 tr, generate_video cfg svc fs uid prompt photos jido fresh fuel =
            some (result, fs2, tr)) ∧
       (∀ u b, result.status = "completed" → result.video_url = some u →
          svc.download u = Except.ok b →
          ∃ tr, generate_video cfg svc fs uid prompt photos jido fresh fuel =
            some ({ result with
                    video_path := some (videoPath cfg.video_storage_path
                      (localJobId jido fresh)) },
                  videoPath cfg.video_storage_path (localJobId jido fresh) :: fs,
                  tr))) ∧
    (∀ msg t ptr,
       pollLoop svc jr.job_id 300 fuel 0 0 = some (Except.error msg, t, ptr) →
       ∃ tr, generate_video cfg svc fs uid prompt photos jido fresh fuel =
         some (exnResult (localJobId jido fresh) msg, fs, tr)) ∧
    (∀ result t ptr u msg,
       pollLoop svc jr.job_id 300 fuel 0 0 = some (Except.ok result, t, ptr) →
       result.status = "completed" → result.video_url = some u →
       svc.download u = Except.error msg →
       ∃ tr, generate_video cfg svc fs uid prompt photos jido fresh fuel =
         some (exnResult (localJobId jido fresh) msg, fs, tr)) := by
  have hafter := real_generate_after_submit cfg svc fs (localJobId jido fresh)
    prompt photos fuel l utr jr hk hup hl hs h200
  have hgen := generate_video_real cfg svc fs uid prompt photos jido fresh fuel hm
  refine ⟨?_, ?_, ?_⟩
  · intro result t ptr hpl
    refine ⟨pollLoop_ok_job_id svc jr.job_id 300 fuel 0 0 result t ptr hpl,
      ?_, ?_⟩
    · intro hnc
      refine ⟨fs, utr ++ [NetEvent.submit prompt l] ++ ptr, ?_⟩
      rw [hgen]
      exact (hafter.2 result t ptr hpl).1 hnc
    · intro u b hcomp hurl hdl
      refine ⟨utr ++ [NetEvent.submit prompt l] ++ ptr
        ++ [NetEvent.download u], ?_⟩
      rw [hgen]
      exact ((hafter.2 result t ptr hpl).2 u hcomp hurl).1 b hdl
  · intro msg t ptr hpl
    refine ⟨utr ++ [NetEvent.submit prompt l] ++ ptr, ?_⟩
    rw [hgen]
    exact hafter.1 msg t ptr hpl
  · intro result t ptr u msg hpl hcomp hurl hdl
    refine ⟨utr ++ [NetEvent.submit prompt l] ++ ptr
      ++ [NetEvent.download u], ?_⟩
    rw [hgen]
    exact ((hafter.2 result t ptr hpl).2 u hcomp hurl).2 msg hdl

/-- C10 (amended) witness: against `svcHappy`, whose remote handle is
`rj_77`, the completed result carries `rj_77` while the artifact lands
in `vid_local.mp4`. -/
theorem result_job_id_after_submit_witness :
    ({ job_id := "rj_77", status := "completed",
       video_url := some "https://cdn/video.mp4" } : GenResult).job_id =
      "rj_77" ∧
    ∃ tr, generate_video cfgReal svcHappy [] 7 "a prompt" ["p1.jpg"]
        (some "vid_local") "" 200 =
      some ({ job_id := "rj_77", status := "completed",
              video_url := some "https://cdn/video.mp4",
              video_path := some (videoPath cfgReal.video_storage_path
                (localJobId (some "vid_local") "")) },
            videoPath cfgReal.video_storage_path (localJobId (some "vid_local") "")
              :: [], tr) := by
  have h := (result_job_id_after_submit cfgReal svcHappy [] 7 "a prompt"
    ["p1.jpg"] (some "vid_local") "" 200 ["fid-p1.jpg"]
    [NetEvent.upload "p1.jpg"]
    { status_code := 200, text := "", job_id := "rj_77" }
    rfl (by decide) rfl (by decide) rfl rfl).1
    { job_id := "rj_77", status := "completed",
      video_url := some "https://cdn/video.mp4" }
    10 [NetEvent.poll 0, NetEvent.poll 1, NetEvent.poll 2] rfl
  exact ⟨h.1, h.2.2 "https://cdn/video.mp4" "bytes" rfl rfl rfl⟩

end VideoGen
